import Mathlib

/-!
Verification development for the aland-website repository.

The JavaScript sources are shallowly embedded in Lean 4:

* JS strings are modelled as lists of UTF-16 code units (`JSString := List Nat`);
  the handlers only ever manipulate ASCII data, so `toLowerCase` is modelled as
  the ASCII case map.
* JS numbers appearing in the modelled code paths are integers (prices, stock
  counts, quantities, timestamps); they are modelled as `Int`/`Nat`.  Numeric
  request-body fields are modelled at the integer values the API contract
  prescribes, after the `parseInt`/`parseFloat` conversions the code performs.
* The in-memory "mock database" of `netlify/functions/utils` (users, products,
  orders) is explicit state threaded through the handler functions; every
  handler returns its HTTP response together with the updated state.
* `bcrypt` and the JWT signature primitive are external collaborators: they are
  abstracted as function parameters (`compare`, `parse`).  `jwt.verify`'s
  time-based checks (the `exp` claim) are modelled explicitly, following the
  jsonwebtoken semantics `clockTimestamp >= exp ⇒ TokenExpiredError`.
* Fallible steps are `Except`/`Option`; a thrown JS exception that a handler's
  outer `try/catch` turns into a 500 response is modelled by the corresponding
  error branch.
-/

set_option maxRecDepth 4000

/-! ## JS strings -/

/-- Model of a JavaScript string: its list of UTF-16 code units. -/
abbrev JSString := List Nat

/-- Conversion from a Lean string literal to the modelled JS string. -/
def js (s : String) : JSString := s.data.map Char.toNat

/-- ASCII lower-casing of one code unit, the action of
`String.prototype.toLowerCase` on the ASCII data the handlers manipulate. -/
def lowerCode (c : Nat) : Nat := if 65 ≤ c ∧ c ≤ 90 then c + 32 else c

/-- Model of `s.toLowerCase()`. -/
def jsToLower (s : JSString) : JSString := s.map lowerCode

/-- Whitespace code units removed by `String.prototype.trim`. -/
def isSpaceCode (c : Nat) : Bool := c = 32 || c = 9 || c = 10 || c = 13 || c = 11 || c = 12

/-- Model of `s.trim()`: strip leading and trailing whitespace. -/
def jsTrim (s : JSString) : JSString :=
  ((s.dropWhile isSpaceCode).reverse.dropWhile isSpaceCode).reverse

/-- Code units removed by `sanitizeInput`: `<` `>` `"` `'`. -/
def isSanitizedOut (c : Nat) : Bool := c = 60 || c = 62 || c = 34 || c = 39

/-- Model of `sanitizeInput` from `netlify/functions/utils` (and the identical
helper in the Express server): `input.trim().replace(/[<>\"']/g, '')`. -/
def sanitizeInput (s : JSString) : JSString :=
  (jsTrim s).filter (fun c => !isSanitizedOut c)

/-- Model of `pattern.isPrefixOf s`-style `String.prototype.startsWith`. -/
def jsStartsWith (s pat : JSString) : Bool := pat.isPrefixOf s

/-- Model of `s.replace(pat, '')` for a plain-string pattern: remove only the
first occurrence of `pat`. -/
def replaceFirst : JSString → JSString → JSString
  | [], _ => []
  | c :: rest, pat =>
      if pat.isPrefixOf (c :: rest) then (c :: rest).drop pat.length
      else c :: replaceFirst rest pat

/-- Decimal digits of a natural number, as JS code units (used where the code
interpolates a number into a template string). -/
def natToJS (n : Nat) : JSString := (Nat.toDigits 10 n).map Char.toNat

/-- JS stringification of an integer. -/
def intToJS (i : Int) : JSString :=
  if i < 0 then 45 :: natToJS i.natAbs else natToJS i.natAbs

/-! ## Responses -/

/-- Shape of the JSON HTTP responses produced by `createResponse` /
`createErrorResponse` (status, `message` field, optional machine `code`). -/
structure Response where
  statusCode : Nat
  message : JSString
  code : Option String
deriving DecidableEq

/-- Model of `createErrorResponse(statusCode, message, code)`. -/
def createErrorResponse (statusCode : Nat) (message : JSString) (code : Option String) :
    Response :=
  ⟨statusCode, message, code⟩

/-! ## Data model -/

/-- Product record of the mock database. -/
structure Product where
  id : Nat
  name : JSString
  description : JSString
  price : Int
  category : JSString
  stock : Int
  image : JSString
  isActive : Bool
  featured : Bool
  updatedAt : Nat
deriving DecidableEq

/-- User record of the mock database. -/
structure User where
  id : Nat
  username : JSString
  email : JSString
  password : JSString
  fullName : JSString
  role : JSString
  isActive : Bool
  createdAt : Nat
  lastLogin : Option Nat
  emailVerified : Bool
  twoFactorEnabled : Bool
deriving DecidableEq

/-- Line item snapshotted onto an order by `orders-create`. -/
structure OrderItem where
  productId : Nat
  productName : JSString
  productImage : JSString
  price : Int
  quantity : Int
  subtotal : Int
deriving DecidableEq

/-- Shipping address sub-object of an order request. -/
structure ShippingAddress where
  fullName : JSString
  address : JSString
  city : JSString
  postalCode : JSString
  phone : JSString
deriving DecidableEq

/-- Order record of the mock database. -/
structure Order where
  id : Nat
  userId : Nat
  orderNumber : JSString
  items : List OrderItem
  shippingAddress : ShippingAddress
  paymentMethod : JSString
  notes : JSString
  status : JSString
  subtotal : Int
  shippingCost : Int
  totalAmount : Int
  createdAt : Nat
  updatedAt : Nat
  estimatedDelivery : Option Nat
  trackingNumber : Option JSString
  paymentStatus : JSString
  adminNotes : Option JSString
deriving DecidableEq

/-- The mock database of `netlify/functions/utils`. -/
structure MockDB where
  users : List User
  products : List Product
  orders : List Order
deriving DecidableEq

/-! ## Rate limiter -/

/-- The in-memory `rateLimitStore`: per key, the list of recorded request
timestamps.  A key that was never inserted maps to `[]`, which is
observationally identical to the `Map` in the source (`set(key, [])` for a
missing key does not change any lookup). -/
abbrev RateStore := String → List Int

/-- The empty rate-limit store. -/
def emptyRateStore : RateStore := fun _ => []

/-- Model of `checkRateLimit(clientIP, endpoint, maxRequests, windowMs)` from
`netlify/functions/utils` (the variant without the development bypass; the
other variant is identical after its environment-dependent bypass, which is
configuration, not logic).  `now` is `Date.now()`. -/
def checkRateLimit (store : RateStore) (clientIP endpoint : String) (maxRequests : Nat)
    (windowMs now : Int) : Bool × RateStore :=
  let key := clientIP ++ ":" ++ endpoint
  let windowStart := now - windowMs
  let validRequests := (store key).filter (fun t => windowStart < t)
  if maxRequests ≤ validRequests.length then
    (false, store)
  else
    (true, fun k => if k = key then validRequests ++ [now] else store k)

/-- Run a sequence of requests (their `Date.now()` values) for one key through
`checkRateLimit`, collecting each request's verdict. -/
def runRateLimit (clientIP endpoint : String) (maxRequests : Nat) (windowMs : Int) :
    RateStore → List Int → List Bool × RateStore
  | store, [] => ([], store)
  | store, t :: ts =>
      let r := checkRateLimit store clientIP endpoint maxRequests windowMs t
      let rest := runRateLimit clientIP endpoint maxRequests windowMs r.2 ts
      (r.1 :: rest.1, rest.2)

/-! ## Input validation helpers (`netlify/functions/utils`) -/

/-- Model of `validateEmail`: the anchored regex
`^[^\s@]+@[^\s@]+\.[^\s@]+$`.  A string matches exactly when it contains no
whitespace, exactly one `@` (code 64) preceded by at least one character, and
the part after the `@` contains a `.` (code 46) that is neither its first nor
its last character. -/
def validateEmail (e : JSString) : Bool :=
  (e.countP (fun c => c == 64) == 1) &&
  (e.all (fun c => !isSpaceCode c)) &&
  (let localPart := e.takeWhile (fun c => c ≠ 64)
   let domain := ((e.dropWhile (fun c => c ≠ 64)).drop 1)
   decide (1 ≤ localPart.length) && ((domain.drop 1).dropLast.contains 46))

/-- Code units accepted by `validatePassword`'s "number or special character"
class `[0-9!@#$%^&*()_+\-=\[\]{};':"\\|,.<>\/?]`. -/
def isNumberOrSpecial (c : Nat) : Bool :=
  (48 ≤ c && c ≤ 57) ||
  c ∈ [33, 64, 35, 36, 37, 94, 38, 42, 40, 41, 95, 43, 45, 61,
       91, 93, 123, 125, 59, 39, 58, 34, 92, 124, 44, 46, 60, 62, 47, 63]

/-- Model of `validatePassword` from `netlify/functions/utils`: `none` means
valid, `some msg` is the error message returned. -/
def validatePassword (password : JSString) : Option JSString :=
  if password = [] then some (js "Password is required")
  else if password.length < 6 then
    some (js "Password must be at least 6 characters long")
  else if 128 < password.length then
    some (js "Password must be less than 128 characters")
  else if !(password.any isNumberOrSpecial) then
    some (js "Password must contain at least one number or special character")
  else none

/-! ## JWT model -/

/-- Claims of a token signed by the login endpoints: `{id, username, email,
role, iat}` plus the `exp` added by `jwt.sign`'s `expiresIn`.  `iat` and `exp`
are in seconds. -/
structure TokenPayload where
  id : Nat
  username : JSString
  email : JSString
  role : JSString
  iat : Nat
  exp : Nat
deriving DecidableEq

/-- Outcome of decoding a token string and checking its signature, abstracting
the cryptography: `payload p` means the signature verifies and the claims are
`p`; `badSig` covers malformed tokens and wrong signatures. -/
inductive JwtParse where
  | payload (p : TokenPayload)
  | badSig
deriving DecidableEq

/-- Errors thrown by `jwt.verify`. -/
inductive JwtErr where
  | tokenExpiredError
  | jsonWebTokenError
deriving DecidableEq

/-- Model of `jwt.verify(token, JWT_SECRET)` at clock time `nowSec`
(jsonwebtoken uses `Math.floor(Date.now() / 1000)` and throws
`TokenExpiredError` when `clockTimestamp >= exp`). -/
def jwtVerifyAt (parse : JSString → JwtParse) (nowSec : Nat) (token : JSString) :
    Except JwtErr TokenPayload :=
  match parse token with
  | .badSig => .error .jsonWebTokenError
  | .payload p => if p.exp ≤ nowSec then .error .tokenExpiredError else .ok p

/-- Identity attached to `req.user` by the Express middleware. -/
structure CallerIdentity where
  id : Nat
  email : JSString
  username : JSString
  role : JSString
deriving DecidableEq

/-- Model of the Express `verifyToken` middleware (server `verifyToken`,
part_000 lines 466-532).  `nowMs` is `Date.now()`.  The age check
`Date.now() / 1000 - decoded.iat > 24 * 60 * 60` is written in its exact
integer form `nowMs - 1000 * iat > 86400000` (multiplying the strict rational
inequality by 1000). -/
def verifyTokenExpress (parse : JSString → JwtParse) (nowMs : Nat)
    (authHeader : Option JSString) : Except Response CallerIdentity :=
  match authHeader with
  | none =>
      .error (createErrorResponse 401 (js "Access denied. No valid token provided.")
        (some "NO_TOKEN"))
  | some h =>
      if !jsStartsWith h (js "Bearer ") then
        .error (createErrorResponse 401 (js "Access denied. No valid token provided.")
          (some "NO_TOKEN"))
      else
        let token := jsTrim (replaceFirst h (js "Bearer "))
        if token = [] || token.length < 10 then
          .error (createErrorResponse 401 (js "Invalid token format")
            (some "INVALID_TOKEN_FORMAT"))
        else
          match jwtVerifyAt parse (nowMs / 1000) token with
          | .error .tokenExpiredError =>
              .error (createErrorResponse 401 (js "Token has expired") (some "TOKEN_EXPIRED"))
          | .error .jsonWebTokenError =>
              .error (createErrorResponse 401 (js "Invalid token") (some "INVALID_TOKEN"))
          | .ok decoded =>
              if decoded.id = 0 || decoded.email = [] then
                .error (createErrorResponse 401 (js "Invalid token payload")
                  (some "INVALID_PAYLOAD"))
              else if (86400000 : Int) < (nowMs : Int) - 1000 * (decoded.iat : Int) then
                .error (createErrorResponse 401 (js "Token expired") (some "TOKEN_EXPIRED"))
              else
                .ok ⟨decoded.id, decoded.email, decoded.username, decoded.role⟩

/-- Model of `verifyToken(token)` from `netlify/functions/utils` (part_002
lines 197-214): requires the *argument* to start with `'Bearer '`, strips that
first occurrence, trims, runs `jwt.verify`, then checks `id`/`email`
truthiness.  Every failure throws the same generic error, modelled as
`.error ()`.  Note there is no issuance-age ceiling here: time enters only
through `jwt.verify`'s check of the embedded `exp` claim. -/
def verifyTokenUtils (parse : JSString → JwtParse) (nowSec : Nat) (token : JSString) :
    Except Unit TokenPayload :=
  if token = [] || !jsStartsWith token (js "Bearer ") then .error ()
  else
    let actualToken := jsTrim (replaceFirst token (js "Bearer "))
    match jwtVerifyAt parse nowSec actualToken with
    | .error _ => .error ()
    | .ok decoded =>
        if decoded.id = 0 || decoded.email = [] then .error () else .ok decoded

/-! ## Order creation (`netlify/functions/orders-create.js`) -/

/-- One entry of the `items` array of an order-creation request, after JSON
parsing: `{productId, quantity}`.  JS falsiness of the number 0 is preserved
(`!productId`, `!quantity`). -/
structure CartItem where
  productId : Int
  quantity : Int
deriving DecidableEq

/-- Parsed JSON body of an order-creation request.  `items = none` models a
missing or non-array `items` field; option fields model absent (or falsy)
properties. -/
structure CreateOrderBody where
  items : Option (List CartItem)
  shippingAddress : Option ShippingAddress
  paymentMethod : Option JSString
  notes : Option JSString
deriving DecidableEq

/-- The `allowedPaymentMethods` list of `orders-create.js`. -/
def allowedPaymentMethods : List JSString :=
  [js "credit_card", js "debit_card", js "bank_transfer", js "e_wallet", js "cash_on_delivery"]

/-- The per-line validation loop of `orders-create.js` (lines 107-140): walks
the cart in order, returning the first error response, or the snapshotted
`processedItems` together with the accumulated `totalAmount`.  No stock is
touched here. -/
def processItems (products : List Product) : List CartItem → Except Response (List OrderItem × Int)
  | [] => .ok ([], 0)
  | item :: rest =>
      if item.productId = 0 || item.quantity ≤ 0 then
        .error (createErrorResponse 400
          (js "Invalid item: productId and positive quantity required") none)
      else
        match products.find? (fun p => (p.id : Int) = item.productId) with
        | none =>
            .error (createErrorResponse 400
              (js "Product with ID " ++ intToJS item.productId ++ js " not found") none)
        | some product =>
            if !product.isActive then
              .error (createErrorResponse 400
                (js "Product \"" ++ product.name ++ js "\" is not available") none)
            else if product.stock < item.quantity then
              .error (createErrorResponse 400
                (js "Insufficient stock for product \"" ++ product.name ++
                 js "\". Available: " ++ intToJS product.stock ++
                 js ", Requested: " ++ intToJS item.quantity) none)
            else
              match processItems products rest with
              | .error e => .error e
              | .ok (acc, total) =>
                  .ok (⟨product.id, product.name, product.image, product.price,
                        item.quantity, product.price * item.quantity⟩ :: acc,
                       product.price * item.quantity + total)

/-- `product.stock -= item.quantity` applied to the first product whose id is
`pid` (the `mockDB.products.find(...)` in the stock-update loop). -/
def decStockFirst : List Product → Nat → Int → List Product
  | [], _, _ => []
  | p :: ps, pid, q =>
      if p.id = pid then { p with stock := p.stock - q } :: ps
      else p :: decStockFirst ps pid q

/-- The stock-update loop of `orders-create.js` (lines 166-172), run only after
every line validated. -/
def applyStockDecrements (products : List Product) (items : List OrderItem) : List Product :=
  items.foldl (fun ps item => decStockFirst ps item.productId item.quantity) products

/-- Model of the body-processing part of the `orders-create.js` handler
(lines 46-197): everything after the CORS / method / rate-limit / token
prologue, with the authenticated caller's id already extracted from the token
payload.  `nowMs` is `Date.now()` and `rand` the random order-number suffix. -/
def ordersCreateCore (db : MockDB) (userId : Nat) (body : Option CreateOrderBody)
    (nowMs : Nat) (rand : JSString) : Response × MockDB :=
  match body with
  | none => (createErrorResponse 400 (js "Invalid JSON body") none, db)
  | some b =>
      match b.items with
      | none => (createErrorResponse 400 (js "Order items are required") none, db)
      | some items =>
          if items = [] then
            (createErrorResponse 400 (js "Order items are required") none, db)
          else
            match b.shippingAddress with
            | none => (createErrorResponse 400 (js "Shipping address is required") none, db)
            | some addr =>
                match b.paymentMethod with
                | none => (createErrorResponse 400 (js "Payment method is required") none, db)
                | some paymentMethod =>
                    if addr.fullName = [] || addr.address = [] || addr.city = [] ||
                       addr.postalCode = [] || addr.phone = [] then
                      (createErrorResponse 400
                        (js "Complete shipping address required (fullName, address, city, postalCode, phone)")
                        none, db)
                    else
                      let sa : ShippingAddress :=
                        ⟨sanitizeInput addr.fullName, sanitizeInput addr.address,
                         sanitizeInput addr.city, sanitizeInput addr.postalCode,
                         sanitizeInput addr.phone⟩
                      if sa.fullName.length < 2 || 100 < sa.fullName.length then
                        (createErrorResponse 400
                          (js "Full name must be between 2-100 characters") none, db)
                      else if sa.address.length < 5 || 200 < sa.address.length then
                        (createErrorResponse 400
                          (js "Address must be between 5-200 characters") none, db)
                      else if sa.city.length < 2 || 50 < sa.city.length then
                        (createErrorResponse 400
                          (js "City must be between 2-50 characters") none, db)
                      else if !(allowedPaymentMethods.contains paymentMethod) then
                        (createErrorResponse 400 (js "Invalid payment method") none, db)
                      else
                        match processItems db.products items with
                        | .error e => (e, db)
                        | .ok (processedItems, totalAmount) =>
                            let shippingCost : Int := if 100 < totalAmount then 0 else 15
                            let finalAmount := totalAmount + shippingCost
                            let newOrder : Order :=
                              { id := db.orders.length + 1
                                userId := userId
                                orderNumber := js "ORD-" ++ natToJS nowMs ++ js "-" ++ rand
                                items := processedItems
                                shippingAddress := sa
                                paymentMethod := paymentMethod
                                notes := match b.notes with
                                  | some n => if n = [] then [] else sanitizeInput n
                                  | none => []
                                status := js "pending"
                                subtotal := totalAmount
                                shippingCost := shippingCost
                                totalAmount := finalAmount
                                createdAt := nowMs
                                updatedAt := nowMs
                                estimatedDelivery := some (nowMs + 7 * 24 * 60 * 60 * 1000)
                                trackingNumber := none
                                paymentStatus := js "pending"
                                adminNotes := none }
                            (⟨201, js "Order created successfully", none⟩,
                             { db with
                                products := applyStockDecrements db.products processedItems
                                orders := db.orders ++ [newOrder] })

/-- Model of the full `orders-create.js` handler including its prologue
(lines 12-44): CORS preflight, method check, rate limiting, and the token
check.  `verifyToken` throws for any argument not starting with `'Bearer '`
(the handler has already stripped that prefix), which the outer `try/catch`
converts to a 500; when it does return, the returned JWT payload record has no
`success` property, so `decoded.success` is `undefined` and the
`!decoded.success` guard always produces the 401 before any order logic
runs. -/
def ordersCreateHandler (parse : JSString → JwtParse) (nowMs : Nat) (db : MockDB)
    (rl : RateStore) (clientIP : String) (httpMethod : String)
    (authorization : Option JSString) (_body : Option CreateOrderBody) (_rand : JSString) :
    Response × MockDB × RateStore :=
  if httpMethod = "OPTIONS" then (⟨200, [], none⟩, db, rl)
  else if httpMethod ≠ "POST" then
    (createErrorResponse 405 (js "Method not allowed") none, db, rl)
  else
    let rlr := checkRateLimit rl clientIP "order-create" 10 (60 * 60 * 1000) (nowMs : Int)
    if !rlr.1 then
      (createErrorResponse 429 (js "Too many order attempts, please try again later.") none,
       db, rlr.2)
    else
      let token := replaceFirst (authorization.getD []) (js "Bearer ")
      if token = [] then
        (createErrorResponse 401 (js "Access token required") (some "TOKEN_REQUIRED"),
         db, rlr.2)
      else
        match verifyTokenUtils parse (nowMs / 1000) token with
        | .error _ =>
            (createErrorResponse 500 (js "Internal server error during order creation")
              (some "ORDER_CREATE_ERROR"), db, rlr.2)
        | .ok _decoded =>
            (createErrorResponse 401 (js "Invalid access token") (some "INVALID_TOKEN"),
             db, rlr.2)

/-! ## Order management (`netlify/functions/orders-manage.js`) -/

/-- Parsed JSON body of an order-update request; each field `undefined` when
absent. -/
structure ManageBody where
  status : Option JSString
  trackingNumber : Option JSString
  notes : Option JSString
  paymentStatus : Option JSString
deriving DecidableEq

/-- The `allowedStatuses` list of `orders-manage.js`. -/
def allowedStatuses : List JSString :=
  [js "pending", js "confirmed", js "processing", js "shipped", js "delivered", js "cancelled"]

/-- The `statusTransitions` table of `orders-manage.js`; `none` models the
`undefined` lookup for a key outside the table (the code then uses
`?.includes`, which is falsy). -/
def statusTransitions (s : JSString) : Option (List JSString) :=
  if s = js "pending" then some [js "confirmed", js "cancelled"]
  else if s = js "confirmed" then some [js "processing", js "cancelled"]
  else if s = js "processing" then some [js "shipped", js "cancelled"]
  else if s = js "shipped" then some [js "delivered", js "cancelled"]
  else if s = js "delivered" then some []
  else if s = js "cancelled" then some []
  else none

/-- `product.stock += item.quantity` applied to the first product whose id is
`pid` (the `mockDB.products.find(...)` of the restoration loop). -/
def incStockFirst : List Product → Nat → Int → List Product
  | [], _, _ => []
  | p :: ps, pid, q =>
      if p.id = pid then { p with stock := p.stock + q } :: ps
      else p :: incStockFirst ps pid q

/-- The stock-restoration loop run when an order is transitioned into
`cancelled` (`orders-manage.js` lines 127-132); an item whose product no
longer exists is skipped. -/
def restoreStock (products : List Product) (items : List OrderItem) : List Product :=
  items.foldl (fun ps item => incStockFirst ps item.productId item.quantity) products

/-- The status-update block of `orders-manage.js` (lines 95-136).  Returns the
updated order, the (possibly restored) products, and whether the status
counted as a change.  The in-place mutation of `mockDB.products` is reflected
by returning the new product list; the human-readable `changes` strings only
feed the response data and logs and are not modelled. -/
def manageStatusStep (existingOrder : Order) (updated : Order) (products : List Product)
    (status? : Option JSString) :
    Except Response (Order × List Product × Bool) :=
  match status? with
  | none => .ok (updated, products, false)
  | some status =>
      let sanitizedStatus := sanitizeInput (jsToLower status)
      if !(allowedStatuses.contains sanitizedStatus) then
        .error (createErrorResponse 400
          (js "Invalid status. Allowed: pending, confirmed, processing, shipped, delivered, cancelled")
          none)
      else
        let currentStatus := jsToLower existingOrder.status
        if currentStatus ≠ sanitizedStatus &&
           !((statusTransitions currentStatus).getD []).contains sanitizedStatus then
          .error (createErrorResponse 400
            (js "Cannot change status from \"" ++ currentStatus ++ js "\" to \"" ++
             sanitizedStatus ++ js "\"") none)
        else if currentStatus ≠ sanitizedStatus then
          let products' :=
            if sanitizedStatus = js "cancelled" && currentStatus ≠ js "cancelled" then
              restoreStock products existingOrder.items
            else products
          .ok ({ updated with status := sanitizedStatus }, products', true)
        else
          .ok (updated, products, false)

/-- The tracking-number block of `orders-manage.js` (lines 138-146). -/
def manageTrackingStep (existingOrder : Order) (updated : Order)
    (trackingNumber? : Option JSString) : Order × Bool :=
  match trackingNumber? with
  | none => (updated, false)
  | some tn =>
      let sanitizedTrackingNumber : Option JSString :=
        if sanitizeInput tn = [] then none else some (sanitizeInput tn)
      if existingOrder.trackingNumber ≠ sanitizedTrackingNumber then
        ({ updated with trackingNumber := sanitizedTrackingNumber }, true)
      else (updated, false)

/-- The `allowedPaymentStatuses` list of `orders-manage.js`. -/
def allowedPaymentStatuses : List JSString :=
  [js "pending", js "paid", js "failed", js "refunded"]

/-- The payment-status block of `orders-manage.js` (lines 148-162). -/
def managePaymentStep (existingOrder : Order) (updated : Order)
    (paymentStatus? : Option JSString) : Except Response (Order × Bool) :=
  match paymentStatus? with
  | none => .ok (updated, false)
  | some ps =>
      let sanitizedPaymentStatus := sanitizeInput (jsToLower ps)
      if !(allowedPaymentStatuses.contains sanitizedPaymentStatus) then
        .error (createErrorResponse 400
          (js "Invalid payment status. Allowed: pending, paid, failed, refunded") none)
      else if existingOrder.paymentStatus ≠ sanitizedPaymentStatus then
        .ok ({ updated with paymentStatus := sanitizedPaymentStatus }, true)
      else .ok (updated, false)

/-- The admin-notes block of `orders-manage.js` (lines 164-174);
`existingOrder.adminNotes || ''` is `getD []`. -/
def manageNotesStep (existingOrder : Order) (updated : Order) (notes? : Option JSString) :
    Order × Bool :=
  match notes? with
  | none => (updated, false)
  | some n =>
      let sanitizedNotes := sanitizeInput n
      if existingOrder.adminNotes.getD [] ≠ sanitizedNotes then
        ({ updated with adminNotes := some sanitizedNotes }, true)
      else (updated, false)

/-- `mockDB.orders[orderIndex] = updatedOrder` where `orderIndex` was obtained
by `findIndex(o => o.id === numOrderId)`: replace the first matching order. -/
def setFirstOrder : List Order → Int → Order → List Order
  | [], _, _ => []
  | o :: os, oid, o' =>
      if (o.id : Int) = oid then o' :: os else o :: setFirstOrder os oid o'

/-- Model of the body-processing part of the `orders-manage.js` handler
(lines 56-217): everything after the CORS / method / rate-limit / token /
admin-role prologue.  `orderId? = none` models a path whose last segment fails
`parseInt`.  Faithful to the source, a stock restoration performed by the
status block persists even when a later block (invalid `paymentStatus`)
errors, because the source mutates `mockDB.products` in place before that
check runs. -/
def ordersManageCore (db : MockDB) (orderId? : Option Int) (body? : Option ManageBody)
    (nowMs : Nat) : Response × MockDB :=
  match orderId? with
  | none => (createErrorResponse 400 (js "Valid order ID required") none, db)
  | some orderId =>
      match body? with
      | none => (createErrorResponse 400 (js "Invalid JSON body") none, db)
      | some b =>
          match db.orders.find? (fun o => (o.id : Int) = orderId) with
          | none => (createErrorResponse 404 (js "Order not found") (some "ORDER_NOT_FOUND"), db)
          | some existingOrder =>
              match manageStatusStep existingOrder existingOrder db.products b.status with
              | .error e => (e, db)
              | .ok (u1, products', ch1) =>
                  let dbp := { db with products := products' }
                  let tr := manageTrackingStep existingOrder u1 b.trackingNumber
                  match managePaymentStep existingOrder tr.1 b.paymentStatus with
                  | .error e => (e, dbp)
                  | .ok (u3, ch3) =>
                      let no := manageNotesStep existingOrder u3 b.notes
                      if !(ch1 || tr.2 || ch3 || no.2) then
                        (createErrorResponse 400 (js "No valid changes provided") none, dbp)
                      else
                        let u5 := { no.1 with updatedAt := nowMs }
                        let u6 :=
                          if u5.status = js "shipped" && u5.estimatedDelivery = none then
                            { u5 with estimatedDelivery := some (nowMs + 3 * 24 * 60 * 60 * 1000) }
                          else u5
                        (⟨200, js "Order updated successfully", none⟩,
                         { dbp with orders := setFirstOrder dbp.orders orderId u6 })

/-! ## Registration (`netlify/functions/register.js`) -/

/-- Parsed JSON body of a registration request; an absent field is modelled by
`[]`, which is falsy exactly like `undefined` under the `!username || ...`
check. -/
structure RegisterBody where
  username : JSString
  email : JSString
  password : JSString
  fullName : JSString
deriving DecidableEq

/-- Model of the `register.js` handler.  `hash` abstracts
`bcrypt.hash(password, BCRYPT_SALT_ROUNDS)`. -/
def registerHandler (hash : JSString → JSString) (db : MockDB) (rl : RateStore)
    (clientIP : String) (nowMs : Nat) (httpMethod : String) (body? : Option RegisterBody) :
    Response × MockDB × RateStore :=
  if httpMethod = "OPTIONS" then (⟨200, [], none⟩, db, rl)
  else if httpMethod ≠ "POST" then
    (createErrorResponse 405 (js "Method not allowed") none, db, rl)
  else
    let rlr := checkRateLimit rl clientIP "register" 3 (60 * 60 * 1000) (nowMs : Int)
    if !rlr.1 then
      (createErrorResponse 429 (js "Too many registration attempts, please try again later.")
        none, db, rlr.2)
    else
      match body? with
      | none => (createErrorResponse 400 (js "Invalid JSON body") none, db, rlr.2)
      | some b =>
          if b.username = [] || b.email = [] || b.password = [] || b.fullName = [] then
            (createErrorResponse 400
              (js "All fields are required: username, email, password, fullName") none,
             db, rlr.2)
          else if !validateEmail b.email then
            (createErrorResponse 400 (js "Invalid email format") none, db, rlr.2)
          else
            match validatePassword b.password with
            | some msg => (createErrorResponse 400 msg none, db, rlr.2)
            | none =>
                let sanitizedUsername := sanitizeInput (jsToLower b.username)
                let sanitizedEmail := sanitizeInput (jsToLower b.email)
                let sanitizedFullName := sanitizeInput b.fullName
                if sanitizedUsername.length < 3 || 30 < sanitizedUsername.length then
                  (createErrorResponse 400 (js "Username must be between 3-30 characters")
                    none, db, rlr.2)
                else if sanitizedFullName.length < 2 || 100 < sanitizedFullName.length then
                  (createErrorResponse 400 (js "Full name must be between 2-100 characters")
                    none, db, rlr.2)
                else
                  match db.users.find? (fun u =>
                      jsToLower u.email = sanitizedEmail ||
                      jsToLower u.username = sanitizedUsername) with
                  | some _ =>
                      (createErrorResponse 409
                        (js "User already exists with this email or username")
                        (some "USER_EXISTS"), db, rlr.2)
                  | none =>
                      let newUser : User :=
                        { id := db.users.length + 1
                          username := sanitizedUsername
                          email := sanitizedEmail
                          password := hash b.password
                          fullName := sanitizedFullName
                          role := js "customer"
                          isActive := true
                          createdAt := nowMs
                          lastLogin := none
                          emailVerified := false
                          twoFactorEnabled := false }
                      (⟨201, js "Registration successful", none⟩,
                       { db with users := db.users ++ [newUser] }, rlr.2)

/-! ## Login (`netlify/functions/login.js`) -/

/-- Parsed JSON body of a login request (absent fields modelled by `[]`). -/
structure LoginBody where
  email : JSString
  password : JSString
deriving DecidableEq

/-- `user.lastLogin = new Date().toISOString()` applied through the alias into
`mockDB.users`: update the first user matching the lowered email, i.e. exactly
the object `find` returned. -/
def setLastLoginFirst : List User → JSString → Nat → List User
  | [], _, _ => []
  | u :: us, semail, nowMs =>
      if jsToLower u.email = semail then { u with lastLogin := some nowMs } :: us
      else u :: setLastLoginFirst us semail nowMs

/-- Model of the `login.js` handler.  `compare` abstracts
`bcrypt.compare(password, user.password)`.  The 200 response's data (signed
token and user projection) lives in the response body, outside the
`Response` projection modelled here. -/
def loginHandler (compare : JSString → JSString → Bool) (db : MockDB) (rl : RateStore)
    (clientIP : String) (nowMs : Nat) (httpMethod : String) (body? : Option LoginBody) :
    Response × MockDB × RateStore :=
  if httpMethod = "OPTIONS" then (⟨200, [], none⟩, db, rl)
  else if httpMethod ≠ "POST" then
    (createErrorResponse 405 (js "Method not allowed") none, db, rl)
  else
    let rlr := checkRateLimit rl clientIP "login" 10 (15 * 60 * 1000) (nowMs : Int)
    if !rlr.1 then
      (createErrorResponse 429
        (js "Terlalu banyak percobaan login. Silakan coba lagi dalam 15 menit.") none,
       db, rlr.2)
    else
      match body? with
      | none => (createErrorResponse 400 (js "Invalid JSON body") none, db, rlr.2)
      | some b =>
          if b.email = [] || b.password = [] then
            (createErrorResponse 400 (js "Email and password are required") none, db, rlr.2)
          else if !validateEmail b.email then
            (createErrorResponse 400 (js "Invalid email format") none, db, rlr.2)
          else
            let sanitizedEmail := sanitizeInput (jsToLower b.email)
            match db.users.find? (fun u => jsToLower u.email = sanitizedEmail) with
            | none =>
                (createErrorResponse 401 (js "Invalid email or password")
                  (some "INVALID_CREDENTIALS"), db, rlr.2)
            | some user =>
                if user.isActive = false then
                  (createErrorResponse 403 (js "Account is deactivated")
                    (some "ACCOUNT_DEACTIVATED"), db, rlr.2)
                else if !(compare b.password user.password) then
                  (createErrorResponse 401 (js "Invalid email or password")
                    (some "INVALID_CREDENTIALS"), db, rlr.2)
                else
                  (⟨200, js "Login successful", none⟩,
                   { db with users := setLastLoginFirst db.users sanitizedEmail nowMs },
                   rlr.2)

/-! ## Express product update (`PUT /api/products/:id`, part_000 lines 821-848) -/

/-- Parsed body of the Express product-update route.  Numeric fields carry the
`parseInt`/`parseFloat` result; `some 0` and `some []` are falsy under the
`field ? ... : old` pattern, exactly like the absent field. -/
structure ExpressProductUpdateBody where
  name : Option JSString
  price : Option Int
  description : Option JSString
  category : Option JSString
  stock : Option Int
deriving DecidableEq

/-- Model of the record update performed by the Express
`PUT /api/products/:id` route on the matched product: each provided truthy
field overwrites, with *no validation at all* (in particular no non-negativity
check on `stock`).  The multer-supplied `image` file and the express-level
fields are orthogonal and left unchanged. -/
def expressUpdateProduct (p : Product) (b : ExpressProductUpdateBody) (nowMs : Nat) :
    Product :=
  { p with
    name := match b.name with
      | some n => if n ≠ [] then n else p.name
      | none => p.name
    price := match b.price with
      | some v => if v ≠ 0 then v else p.price
      | none => p.price
    description := match b.description with
      | some d => if d ≠ [] then d else p.description
      | none => p.description
    category := match b.category with
      | some c => if c ≠ [] then c else p.category
      | none => p.category
    stock := match b.stock with
      | some s => if s ≠ 0 then s else p.stock
      | none => p.stock
    updatedAt := nowMs }

/-! ## Derived predicates used by the statements -/

/-- A cart line that fails the per-line validation of `orders-create.js`
against a product list: product missing, product inactive, or requested
quantity exceeding current stock. -/
def cartLineFails (products : List Product) (item : CartItem) : Bool :=
  match products.find? (fun p => (p.id : Int) = item.productId) with
  | none => true
  | some p => !p.isActive || decide (p.stock < item.quantity)

/-- Total quantity that the restoration loop adds back for the product with id
`pid`: the sum of the quantities of the order's items referencing it. -/
def sumRestock (items : List OrderItem) (pid : Nat) : Int :=
  ((items.filter (fun item => item.productId = pid)).map (fun item => item.quantity)).sum

/-- Two user records collide when their emails or usernames agree
case-insensitively. -/
def userClash (u v : User) : Bool :=
  jsToLower u.email == jsToLower v.email || jsToLower u.username == jsToLower v.username

/-- Case-insensitive uniqueness of usernames and emails across a user list. -/
def usersUniqueB : List User → Bool
  | [] => true
  | u :: us => us.all (fun v => !userClash u v) && usersUniqueB us

/-! ## Concrete fixtures used by witnesses and counterexamples -/

/-- A sample active product. -/
def sampleProduct : Product :=
  { id := 1, name := js "Gadget", description := js "A sample gadget for tests",
    price := 10, category := js "Electronics", stock := 5, image := js "/img/1.jpg",
    isActive := true, featured := false, updatedAt := 0 }

/-- A second sample active product. -/
def sampleProduct2 : Product :=
  { id := 2, name := js "Widget", description := js "A sample widget for tests",
    price := 60, category := js "Electronics", stock := 3, image := js "/img/2.jpg",
    isActive := true, featured := false, updatedAt := 0 }

/-- A well-formed shipping address. -/
def sampleAddress : ShippingAddress :=
  { fullName := js "Alice Archer", address := js "1 Long Street", city := js "Mariehamn",
    postalCode := js "22100", phone := js "0401234567" }

/-- A sample order over `sampleProduct` and a product id (99) that no longer
exists, as left by a checkout plus a later product deletion. -/
def sampleOrder : Order :=
  { id := 1, userId := 7, orderNumber := js "ORD-1-X",
    items := [⟨1, js "Gadget", js "/img/1.jpg", 10, 2, 20⟩,
              ⟨99, js "Gone", js "/img/99.jpg", 5, 3, 15⟩],
    shippingAddress := sampleAddress, paymentMethod := js "credit_card", notes := [],
    status := js "pending", subtotal := 35, shippingCost := 15, totalAmount := 50,
    createdAt := 0, updatedAt := 0, estimatedDelivery := some 604800000,
    trackingNumber := none, paymentStatus := js "pending", adminNotes := none }

/-- A sample user (stored fields already sanitized and lower-cased, as the
registration handler stores them). -/
def sampleUser : User :=
  { id := 1, username := js "alice", email := js "alice@x.com",
    password := js "hashed-Passw0rd!", fullName := js "Alice A", role := js "customer",
    isActive := true, createdAt := 0, lastLogin := none, emailVerified := false,
    twoFactorEnabled := false }

/-! ## Additional fixtures used by the theorems below -/

def c5Parse : JSString → JwtParse :=
  fun _ => .payload ⟨1, js "admin", js "admin@alandstore.com", js "admin", 0, 100000000⟩

def registeredUser (hash : JSString → JSString) (db : MockDB) (nowMs : Nat)
    (b : RegisterBody) : User :=
  { id := db.users.length + 1
    username := sanitizeInput (jsToLower b.username)
    email := sanitizeInput (jsToLower b.email)
    password := hash b.password
    fullName := sanitizeInput b.fullName
    role := js "customer"
    isActive := true
    createdAt := nowMs
    lastLogin := none
    emailVerified := false
    twoFactorEnabled := false }

def wDB : MockDB := ⟨[], [sampleProduct], []⟩

def wBodyOk : CreateOrderBody :=
  ⟨some [⟨1, 2⟩], some sampleAddress, some (js "credit_card"), none⟩

def wBodyBad : CreateOrderBody :=
  ⟨some [⟨1, 9⟩], some sampleAddress, some (js "credit_card"), none⟩

def wBodyDup : CreateOrderBody :=
  ⟨some [⟨1, 3⟩, ⟨1, 3⟩], some sampleAddress, some (js "credit_card"), none⟩

def sampleOrderCancelled : Order := { sampleOrder with status := js "cancelled" }

def db3 : MockDB := ⟨[], [sampleProduct, sampleProduct2], [sampleOrder]⟩

def db3c : MockDB := ⟨[], [sampleProduct, sampleProduct2], [sampleOrderCancelled]⟩

def dbU : MockDB := ⟨[sampleUser], [], []⟩

def wStore : RateStore := fun k => if k = "9.9.9.9:login" then [900, 950] else []

def wRegDup : RegisterBody :=
  ⟨js "bob", js "Alice@X.com", js "Passw0rd!", js "Alice B"⟩

def wRegOk : RegisterBody :=
  ⟨js "bob", js "bob@x.com", js "Passw0rd!", js "Bob B"⟩

/-! ## Theorems -/


theorem processItems_error_of_fails (products : List Product) :
    ∀ (items : List CartItem), (∃ it ∈ items, cartLineFails products it = true) →
    ∃ msg, processItems products items = .error (createErrorResponse 400 msg none) := by
  intro items
  induction items with
  | nil => rintro ⟨it, h, _⟩; exact absurd h (List.not_mem_nil it)
  | cons item rest ih =>
      rintro ⟨it, hit, hfail⟩
      unfold processItems
      split
      · exact ⟨_, rfl⟩
      · cases hfind : products.find? (fun p => (p.id : Int) = item.productId) with
        | none => exact ⟨_, rfl⟩
        | some p =>
            dsimp only
            by_cases hact : (!p.isActive) = true
            · rw [if_pos hact]; exact ⟨_, rfl⟩
            · rw [if_neg hact]
              by_cases hstock : p.stock < item.quantity
              · rw [if_pos hstock]; exact ⟨_, rfl⟩
              · rw [if_neg hstock]
                cases List.mem_cons.mp hit with
                | inl heq =>
                    subst heq
                    unfold cartLineFails at hfail
                    rw [hfind] at hfail
                    simp at hfail hact
                    rcases hfail with hfail | hfail
                    · rw [hfail] at hact; exact absurd hact (by simp)
                    · exact absurd hfail hstock
                | inr hmem =>
                    obtain ⟨msg, hmsg⟩ := ih ⟨it, hmem, hfail⟩
                    exact ⟨msg, by rw [hmsg]⟩

theorem processItems_ok_spec (products : List Product) :
    ∀ (items : List CartItem) (ois : List OrderItem) (total : Int),
    processItems products items = .ok (ois, total) →
    (∀ oi ∈ ois, oi.subtotal = oi.price * oi.quantity) ∧
    total = (ois.map (fun oi => oi.subtotal)).sum ∧
    (∀ oi ∈ ois, ∃ p, p ∈ products ∧ p.id = oi.productId ∧ oi.price = p.price ∧
      oi.productName = p.name) := by
  intro items
  induction items with
  | nil =>
      intro ois total h
      unfold processItems at h
      simp only [Except.ok.injEq, Prod.mk.injEq] at h
      obtain ⟨h1, h2⟩ := h
      subst h1; subst h2
      exact ⟨by simp, by simp, by simp⟩
  | cons item rest ih =>
      intro ois total h
      unfold processItems at h
      split at h
      · simp at h
      · cases hfind : products.find? (fun p => (p.id : Int) = item.productId) with
        | none => rw [hfind] at h; simp at h
        | some p =>
            rw [hfind] at h
            dsimp only at h
            split at h
            · simp at h
            · split at h
              · simp at h
              · cases hrest : processItems products rest with
                | error e => rw [hrest] at h; simp at h
                | ok pr =>
                    obtain ⟨acc, t⟩ := pr
                    rw [hrest] at h
                    simp only [Except.ok.injEq, Prod.mk.injEq] at h
                    obtain ⟨h1, h2⟩ := h
                    subst h2
                    subst h1
                    obtain ⟨ihsub, ihsum, ihsrc⟩ := ih acc t hrest
                    refine ⟨?_, ?_, ?_⟩
                    · intro oi hoi
                      rcases List.mem_cons.mp hoi with rfl | hmem
                      · rfl
                      · exact ihsub oi hmem
                    · simp only [List.map_cons, List.sum_cons]
                      rw [ihsum]
                    · intro oi hoi
                      rcases List.mem_cons.mp hoi with rfl | hmem
                      · exact ⟨p, List.mem_of_find?_eq_some hfind, rfl, rfl, rfl⟩
                      · exact ihsrc oi hmem

/-- Claim C1: if any line of a submitted cart fails validation (product missing, product
inactive, or requested quantity exceeding current stock), the order-creation handler returns
an error response (HTTP 400) and the database — in particular every product's stock — is left
completely unchanged; stock is decremented only after every line has been validated. -/
theorem orders_create_no_partial_stock (db : MockDB) (userId : Nat)
    (b : CreateOrderBody) (items : List CartItem) (nowMs : Nat) (rand : JSString)
    (hitems : b.items = some items)
    (hbad : ∃ it ∈ items, cartLineFails db.products it = true) :
    (ordersCreateCore db userId (some b) nowMs rand).1.statusCode = 400 ∧
    (ordersCreateCore db userId (some b) nowMs rand).2 = db := by
  unfold ordersCreateCore
  dsimp only
  rw [hitems]
  dsimp only
  obtain ⟨msg, hmsg⟩ := processItems_error_of_fails db.products items hbad
  split
  · exact ⟨rfl, rfl⟩
  · cases haddr : b.shippingAddress with
    | none => exact ⟨rfl, rfl⟩
    | some addr =>
        dsimp only
        cases hpm : b.paymentMethod with
        | none => exact ⟨rfl, rfl⟩
        | some pm =>
            dsimp only
            split
            · exact ⟨rfl, rfl⟩
            · split
              · exact ⟨rfl, rfl⟩
              · split
                · exact ⟨rfl, rfl⟩
                · split
                  · exact ⟨rfl, rfl⟩
                  · split
                    · exact ⟨rfl, rfl⟩
                    · rw [hmsg]
                      exact ⟨rfl, rfl⟩

theorem processItems_error_status (products : List Product) :
    ∀ (items : List CartItem) (e : Response),
    processItems products items = .error e → e.statusCode = 400 := by
  intro items
  induction items with
  | nil => intro e h; simp [processItems] at h
  | cons item rest ih =>
      intro e h
      unfold processItems at h
      split at h
      · cases h; rfl
      · cases hfind : products.find? (fun p => (p.id : Int) = item.productId) with
        | none => rw [hfind] at h; dsimp only at h; cases h; rfl
        | some p =>
            rw [hfind] at h
            dsimp only at h
            split at h
            · cases h; rfl
            · split at h
              · cases h; rfl
              · cases hrest : processItems products rest with
                | error e' =>
                    rw [hrest] at h
                    dsimp only at h
                    cases h
                    exact ih _ hrest
                | ok pr => rw [hrest] at h; dsimp only at h; cases h

/-- Claim C2: every order successfully created (status 201) satisfies: each item's subtotal
equals its snapshotted price times its quantity, the order's subtotal equals the sum of the
item subtotals, totalAmount equals subtotal plus shippingCost, and shippingCost is 0 iff the
subtotal exceeds the free-shipping threshold (100), else the flat fee (15); each item's price
and name are snapshots of the product as it existed at creation time. -/
theorem orders_create_totals (db : MockDB) (userId : Nat) (body : Option CreateOrderBody)
    (nowMs : Nat) (rand : JSString)
    (h201 : (ordersCreateCore db userId body nowMs rand).1.statusCode = 201) :
    ∃ o, (ordersCreateCore db userId body nowMs rand).2.orders = db.orders ++ [o] ∧
      (∀ oi ∈ o.items, oi.subtotal = oi.price * oi.quantity) ∧
      o.subtotal = (o.items.map (fun oi => oi.price * oi.quantity)).sum ∧
      o.totalAmount = o.subtotal + o.shippingCost ∧
      (o.shippingCost = 0 ↔ 100 < o.subtotal) ∧
      (¬ 100 < o.subtotal → o.shippingCost = 15) ∧
      (∀ oi ∈ o.items, ∃ p, p ∈ db.products ∧ p.id = oi.productId ∧ oi.price = p.price ∧
        oi.productName = p.name) := by
  unfold ordersCreateCore at h201 ⊢
  cases hb : body with
  | none => rw [hb] at h201; simp [createErrorResponse] at h201
  | some b =>
      rw [hb] at h201
      dsimp only at h201 ⊢
      cases hi : b.items with
      | none => rw [hi] at h201; simp [createErrorResponse] at h201
      | some items =>
          rw [hi] at h201
          dsimp only at h201 ⊢
          by_cases hempty : items = []
          · rw [if_pos hempty] at h201; simp [createErrorResponse] at h201
          · rw [if_neg hempty] at h201 ⊢
            cases haddr : b.shippingAddress with
            | none => rw [haddr] at h201; simp [createErrorResponse] at h201
            | some addr =>
                rw [haddr] at h201
                dsimp only at h201 ⊢
                cases hpm : b.paymentMethod with
                | none => rw [hpm] at h201; simp [createErrorResponse] at h201
                | some pm =>
                    rw [hpm] at h201
                    dsimp only at h201 ⊢
                    split at h201
                    · simp [createErrorResponse] at h201
                    · rename_i hc1
                      rw [if_neg hc1]
                      split at h201
                      · simp [createErrorResponse] at h201
                      · rename_i hc2
                        rw [if_neg hc2]
                        split at h201
                        · simp [createErrorResponse] at h201
                        · rename_i hc3
                          rw [if_neg hc3]
                          split at h201
                          · simp [createErrorResponse] at h201
                          · rename_i hc4
                            rw [if_neg hc4]
                            split at h201
                            · simp [createErrorResponse] at h201
                            · rename_i hc5
                              rw [if_neg hc5]
                              cases hpi : processItems db.products items with
                              | error e =>
                                  rw [hpi] at h201
                                  dsimp only at h201
                                  have := processItems_error_status db.products items e hpi
                                  omega
                              | ok pr =>
                                  obtain ⟨processedItems, totalAmount⟩ := pr
                                  dsimp only
                                  obtain ⟨hsub, hsum, hsrc⟩ :=
                                    processItems_ok_spec db.products items processedItems totalAmount hpi
                                  refine ⟨_, rfl, ?_, ?_, ?_, ?_, ?_, ?_⟩
                                  · exact hsub
                                  · dsimp only
                                    rw [hsum]
                                    exact (List.map_congr_left (fun oi hoi => (hsub oi hoi).symm)).symm ▸ rfl
                                  · rfl
                                  · dsimp only
                                    by_cases ht : 100 < totalAmount
                                    · simp [ht]
                                    · simp [ht]
                                  · dsimp only
                                    intro ht
                                    simp [ht]
                                  · exact hsrc

theorem find?_orders_decomp (pre post : List Order) (o : Order) (oid : Int)
    (hpre : ∀ x ∈ pre, ¬ ((x.id : Int) = oid)) (ho : (o.id : Int) = oid) :
    (pre ++ o :: post).find? (fun x => (x.id : Int) = oid) = some o := by
  induction pre with
  | nil => simp [List.find?_cons_of_pos, ho]
  | cons a pre ih =>
      rw [List.cons_append, List.find?_cons_of_neg _ (by simp [hpre a (by simp)])]
      exact ih (fun x hx => hpre x (by simp [hx]))

theorem setFirstOrder_decomp (pre post : List Order) (o o' : Order) (oid : Int)
    (hpre : ∀ x ∈ pre, ¬ ((x.id : Int) = oid)) (ho : (o.id : Int) = oid) :
    setFirstOrder (pre ++ o :: post) oid o' = pre ++ o' :: post := by
  induction pre with
  | nil => simp [setFirstOrder, ho]
  | cons a pre ih =>
      rw [List.cons_append, setFirstOrder, if_neg (hpre a (by simp)), List.cons_append]
      rw [ih (fun x hx => hpre x (by simp [hx]))]

theorem incStockFirst_eq_map (pid : Nat) (q : Int) :
    ∀ (ps : List Product), (ps.map (fun p => p.id)).Nodup →
    incStockFirst ps pid q =
      ps.map (fun p => if p.id = pid then { p with stock := p.stock + q } else p) := by
  intro ps
  induction ps with
  | nil => intro _; rfl
  | cons p ps ih =>
      intro hnodup
      simp only [List.map_cons, List.nodup_cons] at hnodup
      by_cases hp : p.id = pid
      · rw [incStockFirst, if_pos hp, List.map_cons, if_pos hp]
        congr 1
        have hnm : ∀ p' ∈ ps, ¬(p'.id = pid) := by
          intro p' hp' h
          exact hnodup.1 (by rw [hp, ← h]; exact List.mem_map_of_mem _ hp')
        calc ps = ps.map id := (List.map_id ps).symm
          _ = ps.map (fun p' => if p'.id = pid then { p' with stock := p'.stock + q } else p') := by
              exact List.map_congr_left (fun p' hp' => by rw [if_neg (hnm p' hp')]; rfl)
      · rw [incStockFirst, if_neg hp, List.map_cons, if_neg hp]
        congr 1
        exact ih hnodup.2

theorem incStockFirst_map_id (ps : List Product) (pid : Nat) (q : Int) :
    (incStockFirst ps pid q).map (fun p => p.id) = ps.map (fun p => p.id) := by
  induction ps with
  | nil => rfl
  | cons p ps ih =>
      rw [incStockFirst]
      split
      · simp
      · simp [ih]

theorem sumRestock_cons (it : OrderItem) (items : List OrderItem) (pid : Nat) :
    sumRestock (it :: items) pid =
      (if it.productId = pid then it.quantity else 0) + sumRestock items pid := by
  simp only [sumRestock, List.filter_cons]
  split
  · rename_i h
    simp only [decide_eq_true_eq] at h
    simp [h]
  · rename_i h
    simp only [decide_eq_true_eq] at h
    simp [h]

theorem restoreStock_eq_map :
    ∀ (items : List OrderItem) (ps : List Product), (ps.map (fun p => p.id)).Nodup →
    restoreStock ps items =
      ps.map (fun p => { p with stock := p.stock + sumRestock items p.id }) := by
  intro items
  induction items with
  | nil =>
      intro ps _
      have : (fun p : Product => { p with stock := p.stock + sumRestock [] p.id }) =
          (fun p : Product => p) := by
        funext p
        simp [sumRestock]
      rw [this]
      simp [restoreStock]
  | cons it items ih =>
      intro ps hnodup
      have hstep : restoreStock ps (it :: items) =
          restoreStock (incStockFirst ps it.productId it.quantity) items := rfl
      rw [hstep, ih _ (by rw [incStockFirst_map_id]; exact hnodup),
          incStockFirst_eq_map it.productId it.quantity ps hnodup, List.map_map]
      refine List.map_congr_left (fun p _ => ?_)
      simp only [Function.comp]
      by_cases hp : p.id = it.productId
      · simp [hp, sumRestock_cons, add_assoc]
      · simp [hp, sumRestock_cons, Ne.symm hp, add_assoc]

theorem manageStatusStep_cancel (o : Order) (products : List Product)
    (h : o.status = js "pending" ∨ o.status = js "confirmed" ∨ o.status = js "processing" ∨
      o.status = js "shipped") :
    manageStatusStep o o products (some (js "cancelled")) =
      .ok ({ o with status := js "cancelled" }, restoreStock products o.items, true) := by
  rcases h with h | h | h | h <;>
    simp +decide [manageStatusStep, h]

theorem manageStatusStep_cancelled_products (o : Order) (products : List Product)
    (hc : o.status = js "cancelled") (s? : Option JSString) :
    ∀ u ps ch, manageStatusStep o o products s? = .ok (u, ps, ch) → ps = products := by
  intro u ps ch h
  cases s? with
  | none => simp only [manageStatusStep, Except.ok.injEq, Prod.mk.injEq] at h; exact h.2.1.symm
  | some s =>
      unfold manageStatusStep at h
      rw [hc] at h
      rw [show jsToLower (js "cancelled") = js "cancelled" from by decide] at h
      dsimp only at h
      split at h
      · cases h
      · split at h
        · cases h
        · rename_i hguard
          split at h
          · rename_i hne
            exfalso
            apply hguard
            simp only [Bool.and_eq_true, decide_eq_true_eq]
            refine ⟨by simpa using hne, ?_⟩
            simp +decide [statusTransitions]
          · simp only [Except.ok.injEq, Prod.mk.injEq] at h
            exact h.2.1.symm

/-- Claim C3: an admin update that transitions a non-cancelled order to cancelled adds back
exactly each item's recorded quantity to the stock of the corresponding product, silently
skipping items whose product no longer exists; once an order is cancelled, no subsequent
update changes product stock again, and a second cancellation request is rejected as a
non-change (400), leaving the database unchanged. -/
theorem orders_manage_cancel_restores_stock (db : MockDB) (oid : Int) (pre post : List Order) (o : Order) (nowMs : Nat)
    (hdec : db.orders = pre ++ o :: post)
    (hpre : ∀ x ∈ pre, ¬ ((x.id : Int) = oid))
    (ho : (o.id : Int) = oid)
    (hnodup : (db.products.map (fun p => p.id)).Nodup) :
    ((o.status = js "pending" ∨ o.status = js "confirmed" ∨ o.status = js "processing" ∨
        o.status = js "shipped") →
      ordersManageCore db (some oid) (some ⟨some (js "cancelled"), none, none, none⟩) nowMs =
        (⟨200, js "Order updated successfully", none⟩,
         { db with
            products := db.products.map
              (fun p => { p with stock := p.stock + sumRestock o.items p.id })
            orders := pre ++ { o with status := js "cancelled", updatedAt := nowMs } :: post })) ∧
    (o.status = js "cancelled" →
      (∀ b : ManageBody,
        (ordersManageCore db (some oid) (some b) nowMs).2.products = db.products) ∧
      ordersManageCore db (some oid) (some ⟨some (js "cancelled"), none, none, none⟩) nowMs =
        (createErrorResponse 400 (js "No valid changes provided") none, db)) := by
  have hfind : db.orders.find? (fun x => (x.id : Int) = oid) = some o := by
    rw [hdec]; exact find?_orders_decomp pre post o oid hpre ho
  constructor
  · intro hst
    have hset : ∀ o', setFirstOrder db.orders oid o' = pre ++ o' :: post := by
      intro o'; rw [hdec]; exact setFirstOrder_decomp pre post o o' oid hpre ho
    unfold ordersManageCore
    dsimp only
    rw [hfind]
    dsimp only
    rw [manageStatusStep_cancel o db.products hst]
    dsimp only [manageTrackingStep, managePaymentStep, manageNotesStep]
    simp only [Bool.or_self, Bool.or_false, Bool.not_true, Bool.false_eq_true, if_false]
    rw [hset, restoreStock_eq_map o.items db.products hnodup]
    simp +decide
  · intro hc
    constructor
    · intro b
      unfold ordersManageCore
      dsimp only
      rw [hfind]
      dsimp only
      cases hss : manageStatusStep o o db.products b.status with
      | error e => rfl
      | ok tup =>
          obtain ⟨u, ps, ch⟩ := tup
          have hps : ps = db.products :=
            manageStatusStep_cancelled_products o db.products hc b.status u ps ch hss
          subst hps
          dsimp only
          cases hpay : managePaymentStep o (manageTrackingStep o u b.trackingNumber).1
              b.paymentStatus with
          | error e => rfl
          | ok pr =>
              obtain ⟨u3, ch3⟩ := pr
              dsimp only
              split
              · rfl
              · rfl
    · have hstep : manageStatusStep o o db.products (some (js "cancelled")) =
          .ok (o, db.products, false) := by
        simp +decide [manageStatusStep, hc]
      unfold ordersManageCore
      dsimp only
      rw [hfind]
      dsimp only
      rw [hstep]
      rfl

theorem allowed_sanitize (s : JSString) (hs : s ∈ allowedStatuses) :
    sanitizeInput (jsToLower s) = s := by
  simp only [allowedStatuses, List.mem_cons, List.not_mem_nil, or_false] at hs
  rcases hs with rfl | rfl | rfl | rfl | rfl | rfl <;> decide

theorem allowed_lower (s : JSString) (hs : s ∈ allowedStatuses) : jsToLower s = s := by
  simp only [allowedStatuses, List.mem_cons, List.not_mem_nil, or_false] at hs
  rcases hs with rfl | rfl | rfl | rfl | rfl | rfl <;> decide

theorem manageStatusStep_reject (o : Order) (products : List Product) (s : JSString)
    (hcur : o.status ∈ allowedStatuses) (hs : s ∈ allowedStatuses)
    (hne : s ≠ o.status) (hnotin : s ∉ (statusTransitions o.status).getD []) :
    manageStatusStep o o products (some s) =
      .error (createErrorResponse 400
        (js "Cannot change status from \"" ++ o.status ++ js "\" to \"" ++ s ++ js "\"")
        none) := by
  unfold manageStatusStep
  dsimp only
  rw [allowed_sanitize s hs, allowed_lower o.status hcur]
  rw [if_neg (by simpa using hs)]
  have hguard : (decide ¬(o.status = s) &&
      !((statusTransitions o.status).getD []).contains s) = true := by
    simp only [Bool.and_eq_true, decide_eq_true_eq, Bool.not_eq_true']
    exact ⟨Ne.symm hne, by simpa using hnotin⟩
  rw [if_pos hguard]

theorem mem_table_mem_allowed (cur s : JSString) (hcur : cur ∈ allowedStatuses)
    (hs : s ∈ (statusTransitions cur).getD []) : s ∈ allowedStatuses ∧ s ≠ cur := by
  simp only [allowedStatuses, List.mem_cons, List.not_mem_nil, or_false] at hcur
  rcases hcur with rfl | rfl | rfl | rfl | rfl | rfl <;>
    simp only [statusTransitions] at hs <;>
    simp +decide at hs <;>
    rcases hs with rfl | rfl <;> decide

theorem manageStatusStep_allow (o : Order) (products : List Product) (s : JSString)
    (hcur : o.status ∈ allowedStatuses) (hs : s ∈ (statusTransitions o.status).getD []) :
    manageStatusStep o o products (some s) =
      .ok ({ o with status := s },
        (if s = js "cancelled" then restoreStock products o.items else products), true) := by
  obtain ⟨hsa, hne⟩ := mem_table_mem_allowed o.status s hcur hs
  have hoc : ¬(o.status = js "cancelled") := by
    intro h
    rw [h] at hs
    simp +decide [statusTransitions] at hs
  unfold manageStatusStep
  dsimp only
  rw [allowed_sanitize s hsa, allowed_lower o.status hcur]
  rw [if_neg (by simpa using hsa)]
  have hguard : ¬((decide ¬(o.status = s) &&
      !((statusTransitions o.status).getD []).contains s) = true) := by
    simp only [Bool.and_eq_true, decide_eq_true_eq, Bool.not_eq_true']
    rintro ⟨-, hcon⟩
    rw [show ((statusTransitions o.status).getD []).contains s = true from by simpa using hs]
      at hcon
    cases hcon
  rw [if_neg hguard]
  rw [if_pos (by simpa using Ne.symm hne)]
  by_cases hsc : s = js "cancelled"
  · simp [hsc, hoc]
  · simp [hsc]

theorem manageStatusStep_same (o : Order) (products : List Product)
    (hcur : o.status ∈ allowedStatuses) :
    manageStatusStep o o products (some o.status) = .ok (o, products, false) := by
  simp only [allowedStatuses, List.mem_cons, List.not_mem_nil, or_false] at hcur
  rcases hcur with h | h | h | h | h | h <;> simp +decide [manageStatusStep, h]

/-- Claim C4: the admin order update permits exactly the transitions of the table
pending→(confirmed|cancelled), confirmed→(processing|cancelled), processing→(shipped|cancelled),
shipped→(delivered|cancelled), with delivered and cancelled terminal; any other transition is
rejected with a 400 error and the order (whole database) is left unchanged; requesting the
current status is not a transition error and is not counted as a change — combined with
another changing field the update succeeds with the status untouched, and alone it produces
the separate NoChanges 400. -/
theorem orders_manage_transition_table (db : MockDB) (oid : Int) (pre post : List Order) (o : Order) (nowMs : Nat)
    (hdec : db.orders = pre ++ o :: post)
    (hpre : ∀ x ∈ pre, ¬ ((x.id : Int) = oid))
    (ho : (o.id : Int) = oid)
    (hcur : o.status ∈ allowedStatuses) :
    (statusTransitions (js "pending") = some [js "confirmed", js "cancelled"] ∧
     statusTransitions (js "confirmed") = some [js "processing", js "cancelled"] ∧
     statusTransitions (js "processing") = some [js "shipped", js "cancelled"] ∧
     statusTransitions (js "shipped") = some [js "delivered", js "cancelled"] ∧
     statusTransitions (js "delivered") = some [] ∧
     statusTransitions (js "cancelled") = some []) ∧
    (∀ s, s ∈ allowedStatuses → s ≠ o.status → s ∉ (statusTransitions o.status).getD [] →
      ordersManageCore db (some oid) (some ⟨some s, none, none, none⟩) nowMs =
        (createErrorResponse 400
          (js "Cannot change status from \"" ++ o.status ++ js "\" to \"" ++ s ++ js "\"")
          none, db)) ∧
    (∀ s, s ∈ (statusTransitions o.status).getD [] →
      (ordersManageCore db (some oid) (some ⟨some s, none, none, none⟩) nowMs).1.statusCode
        = 200 ∧
      ∃ o', (ordersManageCore db (some oid) (some ⟨some s, none, none, none⟩) nowMs).2.orders =
          pre ++ o' :: post ∧ o'.status = s) ∧
    (∀ tn, (if sanitizeInput tn = [] then none else some (sanitizeInput tn)) ≠ o.trackingNumber →
      (ordersManageCore db (some oid) (some ⟨some o.status, some tn, none, none⟩)
        nowMs).1.statusCode = 200 ∧
      ∃ o', (ordersManageCore db (some oid) (some ⟨some o.status, some tn, none, none⟩)
          nowMs).2.orders = pre ++ o' :: post ∧ o'.status = o.status) ∧
    ordersManageCore db (some oid) (some ⟨some o.status, none, none, none⟩) nowMs =
      (createErrorResponse 400 (js "No valid changes provided") none, db) := by
  have hfind : db.orders.find? (fun x => (x.id : Int) = oid) = some o := by
    rw [hdec]; exact find?_orders_decomp pre post o oid hpre ho
  have hset : ∀ o', setFirstOrder db.orders oid o' = pre ++ o' :: post := by
    intro o'; rw [hdec]; exact setFirstOrder_decomp pre post o o' oid hpre ho
  refine ⟨by decide, ?_, ?_, ?_, ?_⟩
  · intro s hs hne hnotin
    unfold ordersManageCore
    dsimp only
    rw [hfind]
    dsimp only
    rw [manageStatusStep_reject o db.products s hcur hs hne hnotin]
  · intro s hs
    unfold ordersManageCore
    dsimp only
    rw [hfind]
    dsimp only
    rw [manageStatusStep_allow o db.products s hcur hs]
    dsimp only [manageTrackingStep, managePaymentStep, manageNotesStep]
    simp only [Bool.true_or, Bool.or_false, Bool.not_true, Bool.false_eq_true, if_false]
    refine ⟨by trivial, ?_⟩
    rw [hset]
    refine ⟨_, rfl, ?_⟩
    rw [apply_ite Order.status]
    simp
  · intro tn htn
    unfold ordersManageCore
    dsimp only
    rw [hfind]
    dsimp only
    rw [manageStatusStep_same o db.products hcur]
    dsimp only [manageTrackingStep, managePaymentStep, manageNotesStep]
    rw [if_pos (Ne.symm htn)]
    simp only [Bool.false_or, Bool.true_or, Bool.or_false, Bool.not_true, Bool.false_eq_true,
      if_false]
    refine ⟨by trivial, ?_⟩
    rw [hset]
    refine ⟨_, rfl, ?_⟩
    split <;> (rw [apply_ite Order.status]; simp)
  · unfold ordersManageCore
    dsimp only
    rw [hfind]
    dsimp only
    rw [manageStatusStep_same o db.products hcur]
    rfl


/-- Claim C5 (amended): the Express server's verifyToken middleware fails with a 401
TOKEN_EXPIRED (Expired) error for every otherwise-valid token whose issuance timestamp lies
more than 24 hours before the current time, independently of the token's own embedded expiry
claim; the serverless utils' verifyToken performs no such independent ceiling check — see the
counterexample. -/
theorem verifyTokenExpress_hard_age_ceiling (parse : JSString → JwtParse) (nowMs : Nat)
    (h : JSString) (p : TokenPayload)
    (hpre : jsStartsWith h (js "Bearer ") = true)
    (hparse : parse (jsTrim (replaceFirst h (js "Bearer "))) = .payload p)
    (hlen : 10 ≤ (jsTrim (replaceFirst h (js "Bearer "))).length)
    (hid : p.id ≠ 0) (hemail : p.email ≠ [])
    (hage : (86400000 : Int) < (nowMs : Int) - 1000 * (p.iat : Int)) :
    ∃ msg, verifyTokenExpress parse nowMs (some h) =
      .error (createErrorResponse 401 msg (some "TOKEN_EXPIRED")) := by
  unfold verifyTokenExpress
  dsimp only
  rw [hpre]
  simp only [Bool.not_true, Bool.false_eq_true, if_false]
  rw [if_neg (by
    simp only [Bool.or_eq_true, decide_eq_true_eq, not_or, not_lt]
    constructor
    · intro he
      rw [he] at hlen
      simp at hlen
    · exact hlen)]
  unfold jwtVerifyAt
  rw [hparse]
  dsimp only
  by_cases hexp : p.exp ≤ nowMs / 1000
  · rw [if_pos hexp]
    exact ⟨_, rfl⟩
  · rw [if_neg hexp]
    dsimp only
    rw [if_neg (by simp only [Bool.or_eq_true, decide_eq_true_eq, not_or]; exact ⟨hid, hemail⟩)]
    rw [if_pos hage]
    exact ⟨_, rfl⟩

/-- Claim C5 counterexample: the serverless verifyToken accepts a token issued 25 hours ago
(iat = 0 at clock 90000 s) because its embedded expiry claim is still in the future, so the
claim as stated — token verification fails with Expired for every token older than 24h —
is false for this implementation. -/
theorem verifyTokenUtils_no_age_ceiling_counterexample :
    verifyTokenUtils c5Parse 90000 (js "Bearer token1234") =
      .ok ⟨1, js "admin", js "admin@alandstore.com", js "admin", 0, 100000000⟩ ∧
    24 * 60 * 60 < 90000 - (0 : Int) := by
  constructor
  · rfl
  · decide

theorem filter_replicate_window (k : Nat) (t windowStart : Int) (h : windowStart < t) :
    (List.replicate k t).filter (fun x => windowStart < x) = List.replicate k t := by
  apply List.filter_eq_self.mpr
  intro a ha
  rw [List.eq_of_mem_replicate ha]
  simpa using h

theorem runRateLimit_replicate (ip ep : String) (maxR : Nat) (windowMs t : Int)
    (hw : 0 < windowMs) :
    ∀ (n k : Nat) (store : RateStore),
    store (ip ++ ":" ++ ep) = List.replicate k t → k + n ≤ maxR →
    (runRateLimit ip ep maxR windowMs store (List.replicate n t)).1 = List.replicate n true ∧
    (runRateLimit ip ep maxR windowMs store (List.replicate n t)).2 (ip ++ ":" ++ ep) =
      List.replicate (k + n) t := by
  intro n
  induction n with
  | zero => intro k store hs hle; exact ⟨rfl, by simpa using hs⟩
  | succ n ih =>
      intro k store hs hle
      rw [List.replicate_succ]
      have hcheck : checkRateLimit store ip ep maxR windowMs t =
          (true, fun kk => if kk = ip ++ ":" ++ ep then
            List.replicate k t ++ [t] else store kk) := by
        unfold checkRateLimit
        dsimp only
        rw [hs, filter_replicate_window k t (t - windowMs) (by omega)]
        rw [if_neg (by simp; omega)]
      unfold runRateLimit
      rw [hcheck]
      dsimp only
      have hstep := ih (k + 1)
        (fun kk => if kk = ip ++ ":" ++ ep then List.replicate k t ++ [t] else store kk)
        (by simp [← List.replicate_succ'])
        (by omega)
      rw [List.replicate_succ]
      refine ⟨?_, ?_⟩
      · rw [hstep.1]
      · rw [hstep.2]
        congr 1
        omega

/-- Claim C6: the rate limiter refuses a request when the number of still-in-window
timestamps for the (caller, endpoint) key has reached the configured maximum, recording no
timestamp and leaving the store unchanged; otherwise it records the current timestamp;
timestamps older than the window are pruned from the count, so once the window has elapsed a
request is allowed again; concretely, from an empty store the first N requests inside the
window are allowed, the (N+1)-th is refused without recording, and a request one full window
later is allowed again. -/
theorem checkRateLimit_sliding_window (store : RateStore) (ip ep : String) (maxR : Nat)
    (windowMs now : Int) :
    ((maxR ≤ ((store (ip ++ ":" ++ ep)).filter (fun x => now - windowMs < x)).length →
        checkRateLimit store ip ep maxR windowMs now = (false, store)) ∧
     (((store (ip ++ ":" ++ ep)).filter (fun x => now - windowMs < x)).length < maxR →
        (checkRateLimit store ip ep maxR windowMs now).1 = true ∧
        (checkRateLimit store ip ep maxR windowMs now).2 (ip ++ ":" ++ ep) =
          ((store (ip ++ ":" ++ ep)).filter (fun x => now - windowMs < x)) ++ [now]) ∧
     ((∀ x ∈ store (ip ++ ":" ++ ep), x ≤ now - windowMs) → 0 < maxR →
        (checkRateLimit store ip ep maxR windowMs now).1 = true)) ∧
    (∀ t t2 t3 : Int, 0 < windowMs → 0 < maxR → t2 - windowMs < t → t ≤ t3 - windowMs →
      (runRateLimit ip ep maxR windowMs emptyRateStore (List.replicate maxR t)).1 =
        List.replicate maxR true ∧
      (checkRateLimit (runRateLimit ip ep maxR windowMs emptyRateStore
          (List.replicate maxR t)).2 ip ep maxR windowMs t2).1 = false ∧
      (checkRateLimit (runRateLimit ip ep maxR windowMs emptyRateStore
          (List.replicate maxR t)).2 ip ep maxR windowMs t2).2 =
        (runRateLimit ip ep maxR windowMs emptyRateStore (List.replicate maxR t)).2 ∧
      (checkRateLimit (runRateLimit ip ep maxR windowMs emptyRateStore
          (List.replicate maxR t)).2 ip ep maxR windowMs t3).1 = true) := by
  refine ⟨⟨?_, ?_, ?_⟩, ?_⟩
  · intro hge
    unfold checkRateLimit
    dsimp only
    rw [if_pos hge]
  · intro hlt
    unfold checkRateLimit
    dsimp only
    rw [if_neg (not_le.mpr hlt)]
    exact ⟨rfl, by simp⟩
  · intro hall hmax
    have hnil : (store (ip ++ ":" ++ ep)).filter (fun x => now - windowMs < x) = [] := by
      apply List.filter_eq_nil_iff.mpr
      intro a ha
      simpa using not_lt.mpr (hall a ha)
    unfold checkRateLimit
    dsimp only
    rw [hnil, if_neg (by simp; omega)]
  · intro t t2 t3 hw hm h2 h3
    obtain ⟨hres, hkey⟩ := runRateLimit_replicate ip ep maxR windowMs t hw maxR 0
      emptyRateStore rfl (by omega)
    refine ⟨hres, ?_, ?_, ?_⟩
    · unfold checkRateLimit
      dsimp only
      rw [hkey]
      simp only [Nat.zero_add]
      rw [filter_replicate_window maxR t (t2 - windowMs) h2]
      rw [if_pos (by simp)]
    · unfold checkRateLimit
      dsimp only
      rw [hkey]
      simp only [Nat.zero_add]
      rw [filter_replicate_window maxR t (t2 - windowMs) h2]
      rw [if_pos (by simp)]
    · unfold checkRateLimit
      dsimp only
      rw [hkey]
      simp only [Nat.zero_add]
      have hnil : (List.replicate maxR t).filter (fun x => t3 - windowMs < x) = [] := by
        apply List.filter_eq_nil_iff.mpr
        intro a ha
        rw [List.eq_of_mem_replicate ha]
        simpa using not_lt.mpr h3
      rw [hnil, if_neg (by simp; omega)]

/-- Claim C10: any POST to the serverless order-creation handler carrying a non-empty
Authorization header (and passing rate limiting) receives a 401 or 500 error response and
never creates an order: the handler strips the Bearer prefix before calling the utils'
verifyToken, which demands that its argument still start with that prefix and otherwise
throws (caught as a 500), and a payload verifyToken would accept carries no success field, so
the handler's decoded.success guard always produces the 401. -/
theorem ordersCreateHandler_auth_always_fails (parse : JSString → JwtParse) (nowMs : Nat)
    (db : MockDB) (rl : RateStore) (ip : String) (h : JSString)
    (body : Option CreateOrderBody) (rand : JSString)
    (_hne : h ≠ [])
    (hrl : (checkRateLimit rl ip "order-create" 10 (60 * 60 * 1000) (nowMs : Int)).1 = true) :
    ((ordersCreateHandler parse nowMs db rl ip "POST" (some h) body rand).1.statusCode = 401 ∨
     (ordersCreateHandler parse nowMs db rl ip "POST" (some h) body rand).1.statusCode = 500) ∧
    (ordersCreateHandler parse nowMs db rl ip "POST" (some h) body rand).2.1 = db := by
  unfold ordersCreateHandler
  rw [if_neg (by decide), if_neg (by decide)]
  dsimp only
  rw [hrl]
  simp only [Bool.not_true, Bool.false_eq_true, if_false, Option.getD_some]
  by_cases ht : replaceFirst h (js "Bearer ") = []
  · rw [if_pos ht]
    exact ⟨Or.inl rfl, rfl⟩
  · rw [if_neg ht]
    cases hv : verifyTokenUtils parse (nowMs / 1000) (replaceFirst h (js "Bearer ")) with
    | error e => exact ⟨Or.inr rfl, rfl⟩
    | ok d => exact ⟨Or.inl rfl, rfl⟩

theorem lowerCode_lowerCode (c : Nat) : lowerCode (lowerCode c) = lowerCode c := by
  unfold lowerCode
  split_ifs <;> omega

theorem mem_of_mem_dropWhileJS {p : Nat → Bool} {a : Nat} :
    ∀ {l : List Nat}, a ∈ l.dropWhile p → a ∈ l := by
  intro l
  induction l with
  | nil => simp
  | cons x xs ih =>
      intro h
      rw [List.dropWhile_cons] at h
      split at h
      · exact List.mem_cons_of_mem x (ih h)
      · exact h

theorem mem_of_mem_jsTrim {a : Nat} {s : JSString} (h : a ∈ jsTrim s) : a ∈ s := by
  unfold jsTrim at h
  rw [List.mem_reverse] at h
  have h1 := mem_of_mem_dropWhileJS h
  rw [List.mem_reverse] at h1
  exact mem_of_mem_dropWhileJS h1

theorem mem_of_mem_sanitizeInput {a : Nat} {s : JSString} (h : a ∈ sanitizeInput s) : a ∈ s := by
  unfold sanitizeInput at h
  exact mem_of_mem_jsTrim (List.mem_of_mem_filter h)

theorem jsToLower_fixed : ∀ {l : JSString}, (∀ c ∈ l, lowerCode c = c) → jsToLower l = l := by
  intro l
  induction l with
  | nil => intro _; rfl
  | cons c cs ih =>
      intro h
      unfold jsToLower at ih ⊢
      rw [List.map_cons, h c (by simp), ih (fun d hd => h d (by simp [hd]))]

theorem jsToLower_sanitizeInput_jsToLower (s : JSString) :
    jsToLower (sanitizeInput (jsToLower s)) = sanitizeInput (jsToLower s) := by
  apply jsToLower_fixed
  intro c hc
  obtain ⟨d, _, rfl⟩ := List.mem_map.mp (mem_of_mem_sanitizeInput hc)
  exact lowerCode_lowerCode d

theorem usersUniqueB_append (l : List User) (x : User) :
    usersUniqueB (l ++ [x]) = true ↔
      (usersUniqueB l = true ∧ ∀ u ∈ l, userClash u x = false) := by
  induction l with
  | nil => simp [usersUniqueB]
  | cons u l ih =>
      simp only [List.cons_append, usersUniqueB, List.append_eq, Bool.and_eq_true,
        List.all_eq_true, List.mem_append, List.mem_cons, List.mem_singleton,
        Bool.not_eq_true'] at ih ⊢
      constructor
      · rintro ⟨hall, huniq⟩
        obtain ⟨h1, h2⟩ := ih.mp huniq
        refine ⟨⟨fun v hv => hall v (Or.inl hv), h1⟩, ?_⟩
        intro v hv
        rcases hv with rfl | hv
        · exact hall x (Or.inr (Or.inl rfl))
        · exact h2 v hv
      · rintro ⟨⟨hall, huniq⟩, hx⟩
        refine ⟨?_, ih.mpr ⟨huniq, fun v hv => hx v (Or.inr hv)⟩⟩
        intro v hv
        rcases hv with hv | rfl | hnil
        · exact hall v hv
        · exact hx u (Or.inl rfl)
        · cases hnil


/-- Claim C8: a registration request whose email or username matches an existing user's
email or username case-insensitively fails with 409 USER_EXISTS and leaves the user store
unchanged; otherwise the sanitized, lower-cased user record is appended, and case-insensitive
uniqueness of usernames and emails across all users is preserved by every successful
registration. -/
theorem register_duplicate_and_uniqueness (hash : JSString → JSString) (db : MockDB)
    (rl : RateStore) (ip : String) (nowMs : Nat) (b : RegisterBody)
    (hrl : (checkRateLimit rl ip "register" 3 (60 * 60 * 1000) (nowMs : Int)).1 = true)
    (hfu : b.username ≠ []) (hfe : b.email ≠ []) (hfp : b.password ≠ []) (hff : b.fullName ≠ [])
    (hve : validateEmail b.email = true)
    (hvp : validatePassword b.password = none)
    (hul1 : ¬(sanitizeInput (jsToLower b.username)).length < 3)
    (hul2 : ¬30 < (sanitizeInput (jsToLower b.username)).length)
    (hfl1 : ¬(sanitizeInput b.fullName).length < 2)
    (hfl2 : ¬100 < (sanitizeInput b.fullName).length) :
    ((∃ u ∈ db.users, jsToLower u.email = sanitizeInput (jsToLower b.email) ∨
        jsToLower u.username = sanitizeInput (jsToLower b.username)) →
      registerHandler hash db rl ip nowMs "POST" (some b) =
        (createErrorResponse 409 (js "User already exists with this email or username")
          (some "USER_EXISTS"), db,
         (checkRateLimit rl ip "register" 3 (60 * 60 * 1000) (nowMs : Int)).2)) ∧
    ((∀ u ∈ db.users, jsToLower u.email ≠ sanitizeInput (jsToLower b.email) ∧
        jsToLower u.username ≠ sanitizeInput (jsToLower b.username)) →
      registerHandler hash db rl ip nowMs "POST" (some b) =
        (⟨201, js "Registration successful", none⟩,
         { db with users := db.users ++ [registeredUser hash db nowMs b] },
         (checkRateLimit rl ip "register" 3 (60 * 60 * 1000) (nowMs : Int)).2) ∧
      (usersUniqueB db.users = true →
        usersUniqueB (db.users ++ [registeredUser hash db nowMs b]) = true)) := by
  constructor
  · intro hdup
    unfold registerHandler
    rw [if_neg (by decide), if_neg (by decide)]
    dsimp only
    rw [hrl]
    simp only [Bool.not_true, Bool.false_eq_true, if_false]
    rw [if_neg (by simp [hfu, hfe, hfp, hff])]
    rw [hve]
    simp only [Bool.not_true, Bool.false_eq_true, if_false]
    rw [hvp]
    dsimp only
    rw [if_neg (by simp [hul1, hul2])]
    rw [if_neg (by simp [hfl1, hfl2])]
    cases hfind : db.users.find? (fun u =>
        jsToLower u.email = sanitizeInput (jsToLower b.email) ||
        jsToLower u.username = sanitizeInput (jsToLower b.username)) with
    | none =>
        exfalso
        rw [List.find?_eq_none] at hfind
        obtain ⟨u, hu, hpu⟩ := hdup
        exact hfind u hu (by simpa using hpu)
    | some u => rfl
  · intro hng
    unfold registerHandler
    rw [if_neg (by decide), if_neg (by decide)]
    dsimp only
    rw [hrl]
    simp only [Bool.not_true, Bool.false_eq_true, if_false]
    rw [if_neg (by simp [hfu, hfe, hfp, hff])]
    rw [hve]
    simp only [Bool.not_true, Bool.false_eq_true, if_false]
    rw [hvp]
    dsimp only
    rw [if_neg (by simp [hul1, hul2])]
    rw [if_neg (by simp [hfl1, hfl2])]
    rw [List.find?_eq_none.mpr (fun u hu => by
      simp only [Bool.or_eq_true, decide_eq_true_eq]
      push_neg
      exact hng u hu)]
    refine ⟨rfl, ?_⟩
    intro hq
    apply (usersUniqueB_append db.users _).mpr
    refine ⟨hq, ?_⟩
    intro u hu
    unfold userClash registeredUser
    dsimp only
    rw [jsToLower_sanitizeInput_jsToLower, jsToLower_sanitizeInput_jsToLower]
    simp only [Bool.or_eq_false_iff, beq_eq_false_iff_ne]
    exact hng u hu

/-- Claim C9: a login attempt with an email matching no user and a login attempt with an
existing active user's email but a wrong password produce identical responses — the same 401
status code, the same message, and the same INVALID_CREDENTIALS code — so the response does
not reveal whether the account exists. -/
theorem login_indistinguishable_failures (compare : JSString → JSString → Bool) (db : MockDB)
    (rl : RateStore) (ip : String) (nowMs : Nat) (e1 p1 e2 p2 : JSString) (u : User)
    (hrl : (checkRateLimit rl ip "login" 10 (15 * 60 * 1000) (nowMs : Int)).1 = true)
    (he1 : e1 ≠ []) (hp1 : p1 ≠ []) (hv1 : validateEmail e1 = true)
    (hfind1 : db.users.find? (fun v => jsToLower v.email = sanitizeInput (jsToLower e1)) = none)
    (he2 : e2 ≠ []) (hp2 : p2 ≠ []) (hv2 : validateEmail e2 = true)
    (hfind2 : db.users.find? (fun v => jsToLower v.email = sanitizeInput (jsToLower e2)) = some u)
    (hactive : u.isActive = true)
    (hcmp : compare p2 u.password = false) :
    (loginHandler compare db rl ip nowMs "POST" (some ⟨e1, p1⟩)).1 =
      (loginHandler compare db rl ip nowMs "POST" (some ⟨e2, p2⟩)).1 ∧
    (loginHandler compare db rl ip nowMs "POST" (some ⟨e1, p1⟩)).1 =
      createErrorResponse 401 (js "Invalid email or password") (some "INVALID_CREDENTIALS") := by
  have h1 : (loginHandler compare db rl ip nowMs "POST" (some ⟨e1, p1⟩)).1 =
      createErrorResponse 401 (js "Invalid email or password") (some "INVALID_CREDENTIALS") := by
    unfold loginHandler
    rw [if_neg (by decide), if_neg (by decide)]
    dsimp only
    rw [hrl]
    simp only [Bool.not_true, Bool.false_eq_true, if_false]
    rw [if_neg (by simp [he1, hp1])]
    rw [hv1]
    simp only [Bool.not_true, Bool.false_eq_true, if_false]
    rw [hfind1]
  have h2 : (loginHandler compare db rl ip nowMs "POST" (some ⟨e2, p2⟩)).1 =
      createErrorResponse 401 (js "Invalid email or password") (some "INVALID_CREDENTIALS") := by
    unfold loginHandler
    rw [if_neg (by decide), if_neg (by decide)]
    dsimp only
    rw [hrl]
    simp only [Bool.not_true, Bool.false_eq_true, if_false]
    rw [if_neg (by simp [he2, hp2])]
    rw [hv2]
    simp only [Bool.not_true, Bool.false_eq_true, if_false]
    rw [hfind2]
    dsimp only
    rw [if_neg (by simp [hactive])]
    rw [hcmp]
    rfl
  exact ⟨h1.trans h2.symm, h1⟩









/-- Claim C7 (code bug evidence): the stock-nonnegativity invariant is violated by the
code: a cart with two lines for the same product (stock 5, quantity 3 each) passes the
per-line validation and drives the product's stock to -1 in a successfully created (201)
order, and the Express product-update route accepts a negative stock value (-5) with no
validation at all. -/
theorem stock_invariant_violations :
    ((ordersCreateCore wDB 7 (some wBodyDup) 0 (js "X")).1.statusCode = 201 ∧
     (ordersCreateCore wDB 7 (some wBodyDup) 0 (js "X")).2.products.map (fun p => p.stock) =
       [-1]) ∧
    ((expressUpdateProduct sampleProduct ⟨none, none, none, none, some (-5)⟩ 0).stock = -5 ∧
     0 ≤ sampleProduct.stock) := by
  refine ⟨⟨by decide, by decide⟩, by decide, by decide⟩

/-- Witness for Claim C1 at a concrete cart whose only line requests more than the stock. -/
theorem ordersCreate_failed_line_witness :
    (∃ it ∈ [(⟨1, 9⟩ : CartItem)], cartLineFails wDB.products it = true) ∧
    (ordersCreateCore wDB 7 (some wBodyBad) 0 (js "X")).1.statusCode = 400 ∧
    (ordersCreateCore wDB 7 (some wBodyBad) 0 (js "X")).2 = wDB :=
  ⟨by decide, orders_create_no_partial_stock wDB 7 wBodyBad [⟨1, 9⟩] 0 (js "X") rfl (by decide)⟩

/-- Witness for Claim C2 at a concrete successfully-created order. -/
theorem ordersCreate_totals_witness :
    ∃ o, (ordersCreateCore wDB 7 (some wBodyOk) 0 (js "X")).2.orders = wDB.orders ++ [o] ∧
      (∀ oi ∈ o.items, oi.subtotal = oi.price * oi.quantity) ∧
      o.subtotal = (o.items.map (fun oi => oi.price * oi.quantity)).sum ∧
      o.totalAmount = o.subtotal + o.shippingCost ∧
      (o.shippingCost = 0 ↔ 100 < o.subtotal) ∧
      (¬ 100 < o.subtotal → o.shippingCost = 15) ∧
      (∀ oi ∈ o.items, ∃ p, p ∈ wDB.products ∧ p.id = oi.productId ∧ oi.price = p.price ∧
        oi.productName = p.name) :=
  orders_create_totals wDB 7 (some wBodyOk) 0 (js "X") (by decide)

/-- Witness for Claim C3: a concrete cancellation (restoring stock 5 → 7 and skipping the
item whose product 99 no longer exists) and a concrete already-cancelled order. -/
theorem ordersManage_cancel_witness :
    (ordersManageCore db3 (some 1) (some ⟨some (js "cancelled"), none, none, none⟩) 5 =
      (⟨200, js "Order updated successfully", none⟩,
       { db3 with
          products := db3.products.map
            (fun p => { p with stock := p.stock + sumRestock sampleOrder.items p.id })
          orders := [] ++ { sampleOrder with status := js "cancelled", updatedAt := 5 } :: [] })) ∧
    (ordersManageCore db3c (some 1)
        (some ⟨some (js "confirmed"), none, none, none⟩) 5).2.products = db3c.products ∧
    ordersManageCore db3c (some 1) (some ⟨some (js "cancelled"), none, none, none⟩) 5 =
      (createErrorResponse 400 (js "No valid changes provided") none, db3c) :=
  ⟨(orders_manage_cancel_restores_stock db3 1 [] [] sampleOrder 5 rfl (by simp) (by decide) (by decide)).1 (by decide),
   ((orders_manage_cancel_restores_stock db3c 1 [] [] sampleOrderCancelled 5 rfl (by simp) (by decide) (by decide)).2
      (by decide)).1 ⟨some (js "confirmed"), none, none, none⟩,
   ((orders_manage_cancel_restores_stock db3c 1 [] [] sampleOrderCancelled 5 rfl (by simp) (by decide) (by decide)).2
      (by decide)).2⟩

/-- Witness for Claim C4: pending→shipped rejected, pending→confirmed succeeds, setting the
current status together with a tracking number succeeds without a status change, and setting
only the current status yields the NoChanges 400. -/
theorem ordersManage_transition_witness :
    (ordersManageCore db3 (some 1) (some ⟨some (js "shipped"), none, none, none⟩) 5 =
      (createErrorResponse 400
        (js "Cannot change status from \"" ++ sampleOrder.status ++ js "\" to \"" ++
         js "shipped" ++ js "\"") none, db3)) ∧
    ((ordersManageCore db3 (some 1)
        (some ⟨some (js "confirmed"), none, none, none⟩) 5).1.statusCode = 200 ∧
      ∃ o', (ordersManageCore db3 (some 1)
          (some ⟨some (js "confirmed"), none, none, none⟩) 5).2.orders = [] ++ o' :: [] ∧
        o'.status = js "confirmed") ∧
    ((ordersManageCore db3 (some 1)
        (some ⟨some sampleOrder.status, some (js "TRACK99"), none, none⟩) 5).1.statusCode
        = 200 ∧
      ∃ o', (ordersManageCore db3 (some 1)
          (some ⟨some sampleOrder.status, some (js "TRACK99"), none, none⟩) 5).2.orders =
          [] ++ o' :: [] ∧ o'.status = sampleOrder.status) ∧
    ordersManageCore db3 (some 1) (some ⟨some sampleOrder.status, none, none, none⟩) 5 =
      (createErrorResponse 400 (js "No valid changes provided") none, db3) :=
  ⟨(orders_manage_transition_table db3 1 [] [] sampleOrder 5 rfl (by simp) (by decide) (by decide)).2.1
      (js "shipped") (by decide) (by decide) (by decide),
   (orders_manage_transition_table db3 1 [] [] sampleOrder 5 rfl (by simp) (by decide) (by decide)).2.2.1
      (js "confirmed") (by decide),
   (orders_manage_transition_table db3 1 [] [] sampleOrder 5 rfl (by simp) (by decide) (by decide)).2.2.2.1
      (js "TRACK99") (by decide),
   (orders_manage_transition_table db3 1 [] [] sampleOrder 5 rfl (by simp) (by decide) (by decide)).2.2.2.2⟩

/-- Witness for Claim C5's amended theorem at a concrete 25-hour-old token. -/
theorem verifyTokenExpress_age_witness :
    ∃ msg, verifyTokenExpress c5Parse 90000000 (some (js "Bearer abcdefghij")) =
      .error (createErrorResponse 401 msg (some "TOKEN_EXPIRED")) :=
  verifyTokenExpress_hard_age_ceiling c5Parse 90000000 (js "Bearer abcdefghij")
    ⟨1, js "admin", js "admin@alandstore.com", js "admin", 0, 100000000⟩
    (by decide) rfl (by decide) (by decide) (by decide) (by decide)


/-- Witness for Claim C6 at concrete stores, windows and request sequences. -/
theorem checkRateLimit_witness :
    (checkRateLimit wStore "9.9.9.9" "login" 2 1000 1000 = (false, wStore)) ∧
    ((checkRateLimit wStore "9.9.9.9" "login" 3 1000 1000).1 = true ∧
     (checkRateLimit wStore "9.9.9.9" "login" 3 1000 1000).2 ("9.9.9.9" ++ ":" ++ "login") =
       ((wStore ("9.9.9.9" ++ ":" ++ "login")).filter (fun x => (1000 : Int) - 1000 < x))
         ++ [1000]) ∧
    ((checkRateLimit wStore "9.9.9.9" "login" 2 1000 5000).1 = true) ∧
    ((runRateLimit "9.9.9.9" "login" 2 1000 emptyRateStore (List.replicate 2 100)).1 =
        List.replicate 2 true ∧
     (checkRateLimit (runRateLimit "9.9.9.9" "login" 2 1000 emptyRateStore
        (List.replicate 2 100)).2 "9.9.9.9" "login" 2 1000 600).1 = false ∧
     (checkRateLimit (runRateLimit "9.9.9.9" "login" 2 1000 emptyRateStore
        (List.replicate 2 100)).2 "9.9.9.9" "login" 2 1000 600).2 =
       (runRateLimit "9.9.9.9" "login" 2 1000 emptyRateStore (List.replicate 2 100)).2 ∧
     (checkRateLimit (runRateLimit "9.9.9.9" "login" 2 1000 emptyRateStore
        (List.replicate 2 100)).2 "9.9.9.9" "login" 2 1000 1100).1 = true) :=
  ⟨(checkRateLimit_sliding_window wStore "9.9.9.9" "login" 2 1000 1000).1.1 (by decide),
   (checkRateLimit_sliding_window wStore "9.9.9.9" "login" 3 1000 1000).1.2.1 (by decide),
   (checkRateLimit_sliding_window wStore "9.9.9.9" "login" 2 1000 5000).1.2.2
     (by decide) (by decide),
   (checkRateLimit_sliding_window wStore "9.9.9.9" "login" 2 1000 0).2 100 600 1100
     (by decide) (by decide) (by decide) (by decide)⟩



/-- Witness for Claim C8: a duplicate-email registration and a fresh registration. -/
theorem register_witness :
    (registerHandler (fun s => s) dbU emptyRateStore "1.2.3.4" 0 "POST" (some wRegDup) =
      (createErrorResponse 409 (js "User already exists with this email or username")
        (some "USER_EXISTS"), dbU,
       (checkRateLimit emptyRateStore "1.2.3.4" "register" 3 (60 * 60 * 1000) (0 : Int)).2)) ∧
    (registerHandler (fun s => s) dbU emptyRateStore "1.2.3.4" 0 "POST" (some wRegOk) =
      (⟨201, js "Registration successful", none⟩,
       { dbU with users := dbU.users ++ [registeredUser (fun s => s) dbU 0 wRegOk] },
       (checkRateLimit emptyRateStore "1.2.3.4" "register" 3 (60 * 60 * 1000) (0 : Int)).2) ∧
     (usersUniqueB dbU.users = true →
      usersUniqueB (dbU.users ++ [registeredUser (fun s => s) dbU 0 wRegOk]) = true)) :=
  ⟨(register_duplicate_and_uniqueness (fun s => s) dbU emptyRateStore "1.2.3.4" 0 wRegDup
      (by decide) (by decide) (by decide) (by decide) (by decide) (by decide) (by decide)
      (by decide) (by decide) (by decide) (by decide)).1 (by decide),
   (register_duplicate_and_uniqueness (fun s => s) dbU emptyRateStore "1.2.3.4" 0 wRegOk
      (by decide) (by decide) (by decide) (by decide) (by decide) (by decide) (by decide)
      (by decide) (by decide) (by decide) (by decide)).2 (by decide)⟩

/-- Witness for Claim C9 at a concrete store with one user. -/
theorem login_witness :
    (loginHandler (fun _ _ => false) dbU emptyRateStore "1.2.3.4" 0 "POST"
        (some ⟨js "bob@x.com", js "whatever1"⟩)).1 =
      (loginHandler (fun _ _ => false) dbU emptyRateStore "1.2.3.4" 0 "POST"
        (some ⟨js "alice@x.com", js "whatever1"⟩)).1 ∧
    (loginHandler (fun _ _ => false) dbU emptyRateStore "1.2.3.4" 0 "POST"
        (some ⟨js "bob@x.com", js "whatever1"⟩)).1 =
      createErrorResponse 401 (js "Invalid email or password") (some "INVALID_CREDENTIALS") :=
  login_indistinguishable_failures (fun _ _ => false) dbU emptyRateStore "1.2.3.4" 0
    (js "bob@x.com") (js "whatever1") (js "alice@x.com") (js "whatever1") sampleUser
    (by decide) (by decide) (by decide) (by decide) (by decide)
    (by decide) (by decide) (by decide) (by decide) (by decide) (by decide)

/-- Witness for Claim C10 at a concrete request with a Bearer header. -/
theorem ordersCreateHandler_auth_witness :
    ((ordersCreateHandler c5Parse 0 wDB emptyRateStore "1.2.3.4" "POST"
        (some (js "Bearer x")) (some wBodyOk) (js "X")).1.statusCode = 401 ∨
     (ordersCreateHandler c5Parse 0 wDB emptyRateStore "1.2.3.4" "POST"
        (some (js "Bearer x")) (some wBodyOk) (js "X")).1.statusCode = 500) ∧
    (ordersCreateHandler c5Parse 0 wDB emptyRateStore "1.2.3.4" "POST"
        (some (js "Bearer x")) (some wBodyOk) (js "X")).2.1 = wDB :=
  ordersCreateHandler_auth_always_fails c5Parse 0 wDB emptyRateStore "1.2.3.4"
    (js "Bearer x") (some wBodyOk) (js "X") (by decide) (by decide)
